import Mathlib

/-!
Verification of the LLM-powered data assistant (FastAPI + SQLite service).

This file shallowly embeds the pure computational core of the repository:

* the SQL safety validator of `app/routers/query.py` (`query_data`, lines 93-107),
* the tiered LLM-response decoders of `app/services/llm.py`
  (`generate_sql`, `summarize_data`),
* the schema renderer and statistics / quality-metric computations of
  `app/services/database.py`,
* the lexical table-name extractor of `app/routers/explain.py`
  (`extract_tables_from_sql`),
* the table-not-found guard of `app/routers/summarize.py`.

Python string primitives (`upper`, `strip`, `startswith`, `in`, `rstrip`,
`find`, `"sep".join`) are modelled explicitly over `List Char` so that every
definition is executable and every concrete claim can be settled by `rfl` or
`decide`.  SQL aggregate semantics (COUNT / AVG / MIN / MAX / GROUP BY on an
in-memory table) follow SQLite's documented behaviour on NULL-aware
aggregation.  Rationals stand in for Python floats; `round(x, n)` is modelled
as exact round-half-to-even, which Python's `round` implements.
-/

/-- Python whitespace recognised by `str.strip()` (ASCII fragment). -/
def isSpaceChar (c : Char) : Bool :=
  c == ' ' || c == '\t' || c == '\n' || c == '\r' || c == '\x0b' || c == '\x0c'

/-- Model of Python `str.upper()` (ASCII case mapping, as used on SQL text). -/
def pyUpper (s : String) : String := ⟨s.data.map Char.toUpper⟩

/-- Model of Python `str.strip()` with no arguments: drop whitespace at both ends. -/
def pyStrip (s : String) : String :=
  ⟨((s.data.dropWhile isSpaceChar).reverse.dropWhile isSpaceChar).reverse⟩

/-- `startsWithL p s` : the char list `p` is an initial segment of `s`. -/
def startsWithL : List Char → List Char → Bool
  | [], _ => true
  | _ :: _, [] => false
  | a :: as, b :: bs => a == b && startsWithL as bs

/-- Model of Python `str.startswith`. -/
def pyStartswith (s p : String) : Bool := startsWithL p.data s.data

/-- `containsSub p s` : the char list `p` occurs as a contiguous substring of `s`. -/
def containsSub (p : List Char) : List Char → Bool
  | [] => startsWithL p []
  | c :: t => startsWithL p (c :: t) || containsSub p t

/-- Model of Python `sub in s` on strings (substring containment). -/
def pyIn (sub s : String) : Bool := containsSub sub.data s.data

/-- Model of Python `s.rstrip(c)` for a one-character strip set:
remove every trailing occurrence of `c`. -/
def pyRstripChar (c : Char) (s : String) : String :=
  ⟨(s.data.reverse.dropWhile (· == c)).reverse⟩

/-- The one failure the SQL safety validator of `query_data` can signal
(`error_code` `INVALID_SQL_TYPE` in the source; the spec calls it
`NotASelectStatement`). -/
inductive QueryApiError where
  | notASelectStatement : QueryApiError
deriving DecidableEq

/-- The SQL safety validator of `app/routers/query.py`, lines 93-107.
The source computes `sql_upper = generated_sql.upper().strip()` once; it is
repeated literally here since the functions are pure.  On acceptance without a
pre-existing `LIMIT` substring, the source builds
`f"{generated_sql.rstrip(';')} LIMIT {request.limit}"`. -/
def validate_sql (sql : String) (limit : Nat) : Except QueryApiError String :=
  if !(pyStartswith (pyStrip (pyUpper sql)) "SELECT") then
    .error .notASelectStatement
  else if pyIn "LIMIT" (pyStrip (pyUpper sql)) then
    .ok sql
  else
    .ok (pyRstripChar ';' sql ++ " LIMIT " ++ toString limit)

/-- C1: the safety validator fails with `NotASelectStatement` exactly when the
trimmed, case-normalized statement does not begin with `SELECT`; and every
accepted SQL whose (case-insensitively checked) text lacks a `LIMIT` substring
is returned as the input with trailing `';'` stripped and a single
`LIMIT <n>` appended, `n` being the requested limit. -/
theorem c1_validator_select_and_limit (sql : String) (n : Nat) :
    (validate_sql sql n = .error .notASelectStatement ↔
      ¬ pyStartswith (pyStrip (pyUpper sql)) "SELECT" = true) ∧
    (∀ out, validate_sql sql n = .ok out →
      pyIn "LIMIT" (pyStrip (pyUpper sql)) = false →
      out = pyRstripChar ';' sql ++ " LIMIT " ++ toString n) := by
  unfold validate_sql
  cases h1 : pyStartswith (pyStrip (pyUpper sql)) "SELECT" <;>
    cases h2 : pyIn "LIMIT" (pyStrip (pyUpper sql)) <;>
      simp [h1, h2]

/-- C1 witness: concrete run of the validator on `"select * from t;"` with
requested limit 7. -/
theorem c1_validator_witness :
    validate_sql "select * from t;" 7 = .ok "select * from t LIMIT 7" ∧
    "select * from t LIMIT 7" =
      pyRstripChar ';' "select * from t;" ++ " LIMIT " ++ toString 7 :=
  ⟨by rfl,
   (c1_validator_select_and_limit "select * from t;" 7).2
     "select * from t LIMIT 7" (by rfl) (by rfl)⟩

/-- A SQLite value: INTEGER, REAL or TEXT (NULL is modelled by `Option`). -/
inductive Val where
  | int (i : Int) : Val
  | real (q : Rat) : Val
  | text (s : String) : Val
deriving DecidableEq

/-- A table cell: `none` is SQL NULL. -/
abbrev Cell := Option Val

/-- Column metadata as produced by `PRAGMA table_info` in
`DatabaseService._get_table_info` (the unused `default` entry of the pragma
output is omitted: no claim and no embedded function reads it). -/
structure ColumnInfo where
  name : String
  type : String
  nullable : Bool
  primary_key : Bool
deriving DecidableEq

/-- A table: its schema metadata together with its rows.  Each row lists the
cells in column order. -/
structure TableData where
  name : String
  columns : List ColumnInfo
  rows : List (List Cell)
deriving DecidableEq

/-- `SELECT COUNT(*) FROM t`, the `row_count` of `_get_table_info`. -/
def row_count (t : TableData) : Nat := t.rows.length

/-- The schema snapshot: the user tables that survive the
`NOT LIKE 'sqlite_%'` filter of `get_schema`, in `sqlite_master` order. -/
abbrev Db := List TableData

/-- Model of Python `"sep".join(lines)`. -/
def pyJoin (sep : String) : List String → String
  | [] => ""
  | [a] => a
  | a :: b :: t => a ++ sep ++ pyJoin sep (b :: t)

/-- One rendered column line of `get_schema_as_text`:
`f"  - {col['name']}: {col['type']}{nullable}{pk}"`. -/
def colLine (c : ColumnInfo) : String :=
  "  - " ++ c.name ++ ": " ++ c.type ++
    (if c.nullable then " (nullable)" else " (not null)") ++
    (if c.primary_key then " [PRIMARY KEY]" else "")

/-- The per-table header line `f"Table: {name} ({row_count} rows)"`. -/
def tableHeaderLine (t : TableData) : String :=
  "Table: " ++ t.name ++ " (" ++ toString (row_count t) ++ " rows)"

/-- The `"-" * 30` separator line. -/
def dashLine : String := String.mk (List.replicate 30 '-')

/-- The `"=" * 50` line under the header. -/
def eqFifty : String := String.mk (List.replicate 50 '=')

/-- The lines `get_schema_as_text` appends for one table: the header line is
prefixed with a literal `"\n"` in the source. -/
def tableLinesSrc (t : TableData) : List String :=
  ("\n" ++ tableHeaderLine t) :: dashLine :: t.columns.map colLine

/-- `DatabaseService.get_schema_as_text` (`app/services/database.py`,
lines 81-94): build the line list and `"\n".join` it. -/
def get_schema_as_text (db : Db) : String :=
  pyJoin "\n" ("DATABASE SCHEMA:" :: eqFifty :: db.flatMap tableLinesSrc)

/-- The same per-table block with the embedded `"\n"` normalised into an
explicit empty line, so that every list element is a single rendered line. -/
def tableLinesFlat (t : TableData) : List String :=
  "" :: tableHeaderLine t :: dashLine :: t.columns.map colLine

theorem pyJoin_cons_ne (a : String) {l : List String} (h : l ≠ []) :
    pyJoin "\n" (a :: l) = a ++ "\n" ++ pyJoin "\n" l := by
  cases l with
  | nil => exact absurd rfl h
  | cons b t => rfl

theorem pyJoin_newline_head (x : String) (l : List String) :
    pyJoin "\n" (("\n" ++ x) :: l) = pyJoin "\n" ("" :: x :: l) := by
  cases l with
  | nil =>
    show "\n" ++ x = "" ++ "\n" ++ x
    rw [String.empty_append]
  | cons b t =>
    rw [@pyJoin_cons_ne ("\n" ++ x) (b :: t) (by simp),
      show pyJoin "\n" ("" :: x :: b :: t) = "" ++ "\n" ++ pyJoin "\n" (x :: b :: t) from
        @pyJoin_cons_ne "" (x :: b :: t) (by simp),
      @pyJoin_cons_ne x (b :: t) (by simp)]
    simp [String.append_assoc, String.empty_append]

theorem pyJoin_newline_mid (pre : List String) (x : String) (suf : List String) :
    pyJoin "\n" (pre ++ ("\n" ++ x) :: suf) = pyJoin "\n" (pre ++ "" :: x :: suf) := by
  induction pre with
  | nil => simpa using pyJoin_newline_head x suf
  | cons a pre ih =>
    rw [List.cons_append, List.cons_append,
      pyJoin_cons_ne _ (by simp), pyJoin_cons_ne _ (by simp), ih]

theorem pyJoin_flatMap_flat (db : Db) : ∀ pre : List String,
    pyJoin "\n" (pre ++ db.flatMap tableLinesSrc) =
      pyJoin "\n" (pre ++ db.flatMap tableLinesFlat) := by
  induction db with
  | nil => intro pre; rfl
  | cons t rest ih =>
    intro pre
    show pyJoin "\n" (pre ++ (tableLinesSrc t ++ rest.flatMap tableLinesSrc)) = _
    rw [tableLinesSrc, List.cons_append, pyJoin_newline_mid pre _ _]
    have h1 : pre ++ "" :: tableHeaderLine t ::
        (dashLine :: t.columns.map colLine ++ rest.flatMap tableLinesSrc) =
        (pre ++ tableLinesFlat t) ++ rest.flatMap tableLinesSrc := by
      simp [tableLinesFlat]
    rw [h1, ih (pre ++ tableLinesFlat t)]
    show _ = pyJoin "\n" (pre ++ (tableLinesFlat t ++ rest.flatMap tableLinesFlat))
    rw [← List.append_assoc]

/-- C9: `schemaAsText` renders a header (`DATABASE SCHEMA:` over a `"="`
line), then for each table — in snapshot order — the line
`Table: <name> (<row_count> rows)` (preceded by a blank line and followed by a
`"-"` separator line) and then one line per column, in declaration order,
formatted `  - <name>: <type> (nullable|not null)` with ` [PRIMARY KEY]`
appended exactly when the column is a primary key. -/
theorem c9_schema_text_rendering (db : Db) :
    get_schema_as_text db =
      pyJoin "\n" ("DATABASE SCHEMA:" :: eqFifty :: db.flatMap tableLinesFlat) := by
  show pyJoin "\n" (["DATABASE SCHEMA:", eqFifty] ++ db.flatMap tableLinesSrc) = _
  rw [pyJoin_flatMap_flat db ["DATABASE SCHEMA:", eqFifty]]
  rfl

/-- Round-half-to-even on rationals, the rounding Python's builtin `round`
implements (on the claims' values the binary-float representation is exact
enough that the float and rational roundings agree). -/
def roundHalfEven (q : Rat) : Int :=
  if q - ⌊q⌋ < 1/2 then ⌊q⌋
  else if (1/2 : Rat) < q - ⌊q⌋ then ⌊q⌋ + 1
  else if ⌊q⌋ % 2 = 0 then ⌊q⌋ else ⌊q⌋ + 1

/-- Model of Python `round(q, n)`. -/
def pyRound (q : Rat) (n : Nat) : Rat := (roundHalfEven (q * 10 ^ n) : Rat) / 10 ^ n

/-- The values of column `i` of a table, one cell per row. -/
def colVals (t : TableData) (i : Nat) : List Cell :=
  t.rows.map (fun r => r.getD i none)

/-- `SELECT COUNT(*) FROM t WHERE col IS NULL`. -/
def countNulls (vs : List Cell) : Nat := (vs.filter Option.isNone).length

/-- `SELECT COUNT(DISTINCT col) FROM t` — NULLs are ignored by
`COUNT(DISTINCT)`. -/
def countDistinct (vs : List Cell) : Nat := (vs.filterMap id).dedup.length

/-- SQLite's numeric coercion inside aggregates; TEXT aggregated numerically
coerces to `0` (no claim aggregates a TEXT cell under a numeric type). -/
def valToNum : Val → Rat
  | .int i => (i : Rat)
  | .real q => q
  | .text _ => 0

/-- The non-NULL values of a column, as numbers. -/
def nonNullNums (vs : List Cell) : List Rat := (vs.filterMap id).map valToNum

/-- `MIN(col)` — NULL when the column has no non-NULL value. -/
def aggMin (vs : List Cell) : Option Rat :=
  match nonNullNums vs with
  | [] => none
  | a :: t => some (t.foldl min a)

/-- `MAX(col)` — NULL when the column has no non-NULL value. -/
def aggMax (vs : List Cell) : Option Rat :=
  match nonNullNums vs with
  | [] => none
  | a :: t => some (t.foldl max a)

/-- `AVG(col)` — NULL when the column has no non-NULL value. -/
def aggAvg (vs : List Cell) : Option Rat :=
  match nonNullNums vs with
  | [] => none
  | a :: t => some ((a :: t).sum / (a :: t).length)

/-- Python truthiness of the fetched `AVG` cell (`row[2]`): `None` and `0.0`
are both falsy. -/
def pyTruthyNum : Option Rat → Bool
  | none => false
  | some q => q != 0

/-- The `min` / `max` / `avg` entries added to a column's statistics dict. -/
structure NumericStats where
  min : Option Rat
  max : Option Rat
  avg : Option Rat
deriving DecidableEq

/-- The declared types granted numeric statistics in
`get_column_statistics`: `col["type"].upper() in ["INTEGER", "REAL",
"NUMERIC", "FLOAT", "DOUBLE"]`. -/
def numericTypeNames : List String := ["INTEGER", "REAL", "NUMERIC", "FLOAT", "DOUBLE"]

/-- One column's statistics dict; `numeric = none` means the `min` / `max` /
`avg` keys are absent. -/
structure ColStats where
  name : String
  type : String
  nullable : Bool
  null_count : Nat
  distinct_count : Nat
  numeric : Option NumericStats
deriving DecidableEq

/-- The per-column body of `DatabaseService.get_column_statistics`
(`app/services/database.py`, lines 138-164).  `avg` reproduces the source's
`round(row[2], 2) if row[2] else None`. -/
def colStatsFor (c : ColumnInfo) (vs : List Cell) : ColStats :=
  ⟨c.name, c.type, c.nullable, countNulls vs, countDistinct vs,
    if pyUpper c.type ∈ numericTypeNames then
      some ⟨aggMin vs, aggMax vs,
        if pyTruthyNum (aggAvg vs) then (aggAvg vs).map (fun q => pyRound q 2)
        else none⟩
    else none⟩

/-- `next((t for t in schema["tables"] if t["name"] == table_name), None)`. -/
def findTable (db : Db) (tableName : String) : Option TableData :=
  db.find? (fun t => t.name == tableName)

/-- `DatabaseService.get_column_statistics`: `[]` when the table is absent
from the schema snapshot. -/
def get_column_statistics (db : Db) (tableName : String) : List ColStats :=
  match findTable db tableName with
  | none => []
  | some t => t.columns.enum.map (fun ic => colStatsFor ic.2 (colVals t ic.1))

/-- The quality-metrics dict of `get_data_quality_metrics`; the source's
`unique_ratio` field is called `uniqueness` here. -/
structure QualityMetrics where
  completeness : Rat
  null_count : Nat
  duplicate_count : Nat
  uniqueness : Rat
deriving DecidableEq

/-- The table-wide NULL total: one `COUNT(*) ... IS NULL` query per column,
summed. -/
def totalNullCount (t : TableData) : Nat :=
  ((List.range t.columns.length).map (fun i => countNulls (colVals t i))).sum

/-- The duplicate-detection query: group by every column (full rows), keep the
groups with more than one member (`HAVING cnt > 1`), and count the groups. -/
def duplicateGroupCount (rows : List (List Cell)) : Nat :=
  (rows.dedup.filter (fun r => 1 < rows.count r)).length

/-- The body of `DatabaseService.get_data_quality_metrics`
(`app/services/database.py`, lines 179-216) for a present table.  A table
with no columns would make the source raise `IndexError` on
`table_info["columns"][0]` (impossible for a real SQLite table); that is the
`none` branch. -/
def metricsOfTable (t : TableData) : Option QualityMetrics :=
  match t.columns with
  | [] => none
  | _ :: _ =>
    let total_cells := row_count t * t.columns.length
    let nulls := totalNullCount t
    let completeness : Rat :=
      if 0 < total_cells then (((total_cells : Rat) - nulls) / total_cells) * 100 else 100
    let distinct := countDistinct (colVals t 0)
    let uniq : Rat := if 0 < row_count t then (distinct : Rat) / (row_count t) else 1
    some ⟨pyRound completeness 2, nulls, duplicateGroupCount t.rows, pyRound uniq 4⟩

/-- `DatabaseService.get_data_quality_metrics`: `none` models the `{}`
returned for an absent table. -/
def get_data_quality_metrics (db : Db) (tableName : String) : Option QualityMetrics :=
  (findTable db tableName).bind metricsOfTable

/-- The `LIKE 'sqlite_%'` pattern that `get_schema` and `get_table_names`
exclude: SQLite `LIKE` is case-insensitive for ASCII, `_` matches exactly one
character and `%` any tail, so a name matches when its first six characters
case-fold to `sqlite` and at least one character follows. -/
def likeSqlitePattern (nm : String) : Bool :=
  startsWithL ['s', 'q', 'l', 'i', 't', 'e'] (nm.data.map Char.toLower) &&
    decide (7 ≤ nm.data.length)

/-- The whole database file: every `type='table'` row of `sqlite_master`,
internal `sqlite_%` tables included — such as the `sqlite_sequence` table
that the seeded database's `AUTOINCREMENT` columns create. -/
structure SqliteFile where
  allTables : List TableData

/-- `DatabaseService.get_schema`: the snapshot keeps only the tables whose
names do not match `LIKE 'sqlite_%'`. -/
def get_schema (f : SqliteFile) : Db :=
  f.allTables.filter (fun t => !(likeSqlitePattern t.name))

/-- `DatabaseService.get_table_names`, which applies the same
`NOT LIKE 'sqlite_%'` filter as `get_schema`. -/
def get_table_names (f : SqliteFile) : List String :=
  (get_schema f).map TableData.name

/-- `DatabaseService.table_exists` (`app/services/database.py`,
lines 218-226): a direct `sqlite_master` name lookup with no `sqlite_%`
filter, unlike `get_schema` and `get_table_names`. -/
def table_exists (f : SqliteFile) (tableName : String) : Bool :=
  f.allTables.any (fun t => t.name == tableName)

/-- What the summarize route surfaces for a request. -/
inductive SummarizeOutcome where
  | ok (stats : List ColStats) (metrics : Option QualityMetrics) : SummarizeOutcome
  | tableNotFound (tableName : String) (availableTables : List String) : SummarizeOutcome
  | internalError : SummarizeOutcome
deriving DecidableEq

/-- The guard-and-gather pipeline of `summarize_data`
(`app/routers/summarize.py`, lines 73-95).  The `table_exists` guard is
unfiltered while `next(t for t in schema["tables"] ...)` at line 94 searches
the filtered snapshot; for a name present in `sqlite_master` but filtered
out of the snapshot, that `next` call raises `StopIteration`, which the
route's `except Exception` handler surfaces as a 500 `INTERNAL_ERROR` — not
as `TABLE_NOT_FOUND`.  The `ok` payload carries the two statistics values
the route goes on to hand to the LLM. -/
def summarize_route (f : SqliteFile) (tableName : String) : SummarizeOutcome :=
  if table_exists f tableName then
    match findTable (get_schema f) tableName with
    | some _ =>
      .ok (get_column_statistics (get_schema f) tableName)
        (get_data_quality_metrics (get_schema f) tableName)
    | none => .internalError
  else
    .tableNotFound tableName (get_table_names f)

/-- A user table of the seeded database. -/
def usersTable : TableData := ⟨"users", [⟨"id", "INTEGER", false, true⟩], []⟩

/-- The internal bookkeeping table SQLite creates for `AUTOINCREMENT`
columns; both its columns are declared without a type. -/
def sqliteSequenceTable : TableData :=
  ⟨"sqlite_sequence", [⟨"name", "", true, false⟩, ⟨"seq", "", true, false⟩], []⟩

/-- C3 counterexample: `sqlite_sequence` is absent from the schema snapshot,
yet the route does not fail with `TableNotFound`: the unfiltered
`table_exists` guard passes, and the search of the filtered snapshot then
raises `StopIteration`, surfaced as a 500 internal error. -/
theorem c3_counterexample_sqlite_sequence :
    "sqlite_sequence" ∉ get_table_names ⟨[usersTable, sqliteSequenceTable]⟩ ∧
    summarize_route ⟨[usersTable, sqliteSequenceTable]⟩ "sqlite_sequence" =
      .internalError ∧
    summarize_route ⟨[usersTable, sqliteSequenceTable]⟩ "sqlite_sequence" ≠
      .tableNotFound "sqlite_sequence"
        (get_table_names ⟨[usersTable, sqliteSequenceTable]⟩) :=
  ⟨by decide, by decide, by decide⟩

/-- C3 as amended: for every table name absent from `sqlite_master`
altogether (the unfiltered `table_exists` lookup fails), the route fails
with `TableNotFound` whose details payload lists the snapshot's table names,
and the two service helpers return their empty sentinels (`[]` and `{}`); a
name absent from the snapshot but present in `sqlite_master` (an internal
`sqlite_%` table) instead surfaces a 500 internal error. -/
theorem c3_table_not_found_absent_from_master (f : SqliteFile) (nm : String)
    (h : table_exists f nm = false) :
    summarize_route f nm = .tableNotFound nm (get_table_names f) ∧
    get_column_statistics (get_schema f) nm = [] ∧
    get_data_quality_metrics (get_schema f) nm = none := by
  have hall : ∀ t ∈ f.allTables, ¬(t.name == nm) = true := by
    rw [table_exists, List.any_eq_false] at h
    exact h
  have hfind : findTable (get_schema f) nm = none := by
    rw [findTable, List.find?_eq_none]
    intro t ht
    exact hall t (List.mem_filter.mp ht).1
  refine ⟨?_, ?_, ?_⟩
  · rw [summarize_route, if_neg (by simp [h])]
  · rw [get_column_statistics, hfind]
  · rw [get_data_quality_metrics, hfind]; rfl

/-- C3 witness: a name absent from `sqlite_master` entirely gets the 404
with the snapshot's table names as details. -/
theorem c3_absent_from_master_witness :
    summarize_route ⟨[usersTable, sqliteSequenceTable]⟩ "orders" =
      .tableNotFound "orders" (get_table_names ⟨[usersTable, sqliteSequenceTable]⟩) ∧
    get_column_statistics (get_schema ⟨[usersTable, sqliteSequenceTable]⟩) "orders" = [] ∧
    get_data_quality_metrics (get_schema ⟨[usersTable, sqliteSequenceTable]⟩) "orders" = none :=
  c3_table_not_found_absent_from_master ⟨[usersTable, sqliteSequenceTable]⟩ "orders" (by decide)

/-- C10: a column's statistics carry `min` / `max` / `avg` exactly when its
declared type, uppercased, is one of the five strings `INTEGER`, `REAL`,
`NUMERIC`, `FLOAT`, `DOUBLE`; in particular `INT` and `DECIMAL(10,2)` columns
get none, while a lowercase `integer` column does. -/
theorem c10_numeric_type_gate :
    (∀ (c : ColumnInfo) (vs : List Cell),
      ((colStatsFor c vs).numeric.isSome = true ↔ pyUpper c.type ∈ numericTypeNames)) ∧
    (colStatsFor ⟨"price", "INT", true, false⟩ []).numeric = none ∧
    (colStatsFor ⟨"amount", "DECIMAL(10,2)", true, false⟩ []).numeric = none ∧
    (colStatsFor ⟨"score", "integer", true, false⟩ []).numeric.isSome = true := by
  refine ⟨?_, by decide, by decide, by decide⟩
  intro c vs
  by_cases h : pyUpper c.type ∈ numericTypeNames <;> simp [colStatsFor, h]

theorem roundHalfEven_of_lt_half {q : Rat} {f : Int} (h1 : (f : Rat) ≤ q)
    (h2 : q < (f : Rat) + 1/2) : roundHalfEven q = f := by
  have hfl : ⌊q⌋ = f := by
    rw [Int.floor_eq_iff]
    exact ⟨h1, by linarith⟩
  rw [roundHalfEven, hfl]
  rw [if_pos (by linarith)]

theorem roundHalfEven_of_gt_half {q : Rat} {f : Int} (h1 : (f : Rat) + 1/2 < q)
    (h2 : q < (f : Rat) + 1) : roundHalfEven q = f + 1 := by
  have hfl : ⌊q⌋ = f := by
    rw [Int.floor_eq_iff]
    exact ⟨by linarith, by linarith⟩
  rw [roundHalfEven, hfl]
  rw [if_neg (by linarith), if_pos (by linarith)]

theorem pyRound_eq_of_lt_half {q : Rat} {n : Nat} {f : Int}
    (h1 : (f : Rat) ≤ q * 10 ^ n) (h2 : q * 10 ^ n < (f : Rat) + 1/2) :
    pyRound q n = (f : Rat) / 10 ^ n := by
  rw [pyRound, roundHalfEven_of_lt_half h1 h2]

theorem pyRound_eq_of_gt_half {q : Rat} {n : Nat} {f : Int}
    (h1 : (f : Rat) + 1/2 < q * 10 ^ n) (h2 : q * 10 ^ n < (f : Rat) + 1) :
    pyRound q n = ((f : Rat) + 1) / 10 ^ n := by
  rw [pyRound, roundHalfEven_of_gt_half h1 h2]
  push_cast
  ring

theorem pyRound_hundred_two : pyRound (100 : Rat) 2 = 100 := by
  rw [@pyRound_eq_of_lt_half 100 2 10000 (by norm_num) (by norm_num)]
  norm_num

theorem pyRound_one_four : pyRound (1 : Rat) 4 = 1 := by
  rw [@pyRound_eq_of_lt_half 1 4 10000 (by norm_num) (by norm_num)]
  norm_num

theorem pyRound_completeness_example : pyRound (250/3 : Rat) 2 = 8333/100 := by
  rw [@pyRound_eq_of_lt_half (250/3) 2 8333 (by norm_num) (by norm_num)]
  norm_num

theorem pyRound_uniq_example : pyRound (2/3 : Rat) 4 = 6667/10000 := by
  rw [@pyRound_eq_of_gt_half (2/3) 4 6666 (by norm_num) (by norm_num)]
  norm_num

/-- C4 evaluated at its failing input: a numeric column holding `-1` and `1`
(two non-null values) gets `avg = NULL`, because the source guards the
average with Python truthiness (`round(row[2], 2) if row[2] else None`) and
`0.0` is falsy. -/
theorem c4_avg_zero_becomes_null :
    get_column_statistics
        [⟨"m", [⟨"v", "INTEGER", true, false⟩],
          [[some (Val.int (-1))], [some (Val.int 1)]]⟩] "m" =
      [⟨"v", "INTEGER", true, 0, 2, some ⟨some (-1), some 1, none⟩⟩] ∧
    (nonNullNums (colVals ⟨"m", [⟨"v", "INTEGER", true, false⟩],
        [[some (Val.int (-1))], [some (Val.int 1)]]⟩ 0)).length = 2 := by
  have hvals : colVals ⟨"m", [⟨"v", "INTEGER", true, false⟩],
      [[some (Val.int (-1))], [some (Val.int 1)]]⟩ 0 =
      [some (Val.int (-1)), some (Val.int 1)] := rfl
  have hnn : nonNullNums [some (Val.int (-1)), some (Val.int 1)] =
      [((-1 : Int) : Rat), ((1 : Int) : Rat)] := rfl
  constructor
  · show [colStatsFor ⟨"v", "INTEGER", true, false⟩
        (colVals ⟨"m", [⟨"v", "INTEGER", true, false⟩],
          [[some (Val.int (-1))], [some (Val.int 1)]]⟩ 0)] = _
    rw [hvals]
    have havg : aggAvg [some (Val.int (-1)), some (Val.int 1)] = some 0 := by
      simp only [aggAvg, hnn, List.sum_cons, List.sum_nil, List.length_cons,
        List.length_nil, Option.some.injEq]
      push_cast
      norm_num
    have htruth : pyTruthyNum (aggAvg [some (Val.int (-1)), some (Val.int 1)]) = false := by
      rw [havg]
      simp [pyTruthyNum]
    have hmin : aggMin [some (Val.int (-1)), some (Val.int 1)] = some (-1) := by
      simp only [aggMin, hnn, List.foldl, Option.some.injEq]
      push_cast
      norm_num
    have hmax : aggMax [some (Val.int (-1)), some (Val.int 1)] = some 1 := by
      simp only [aggMax, hnn, List.foldl, Option.some.injEq]
      push_cast
      norm_num
    simp only [colStatsFor, htruth, hmin, hmax,
      if_pos (show pyUpper "INTEGER" ∈ numericTypeNames by decide)]
    simp [countNulls, countDistinct]
  · rfl

theorem count_le_one_of_nodup {α : Type} [BEq α] [LawfulBEq α] {l : List α}
    (h : l.Nodup) (a : α) : l.count a ≤ 1 := by
  induction l with
  | nil => simp
  | cons b t ih =>
    rcases List.nodup_cons.mp h with ⟨hb, ht⟩
    rw [List.count_cons]
    by_cases hab : a = b
    · subst hab
      have h0 : t.count a = 0 := by
        rw [List.count_eq_zero]
        exact hb
      simp [h0]
    · have hf : (b == a) = false := by
        simpa using fun h => hab h.symm
      simpa [hf] using ih ht

theorem toFinset_dedup_eq {α : Type} [DecidableEq α] (l : List α) :
    l.dedup.toFinset = l.toFinset := by
  apply Finset.ext
  intro a
  simp [List.mem_toFinset, List.mem_dedup]

theorem length_filter_eq_card_filter_toFinset {α : Type} [DecidableEq α]
    {l : List α} (hl : l.Nodup) (p : α → Bool) :
    (l.filter p).length = (l.toFinset.filter (fun a => p a = true)).card := by
  induction l with
  | nil => simp
  | cons a t ih =>
    rcases List.nodup_cons.mp hl with ⟨ha, ht⟩
    have hat : a ∉ t.toFinset := by simpa [List.mem_toFinset] using ha
    by_cases hp : p a
    · rw [List.filter_cons_of_pos hp, List.toFinset_cons, Finset.filter_insert,
        if_pos hp, List.length_cons,
        Finset.card_insert_of_not_mem (fun hmem => hat (Finset.mem_of_mem_filter a hmem)),
        ih ht]
    · rw [List.filter_cons_of_neg hp, List.toFinset_cons, Finset.filter_insert,
        if_neg hp, ih ht]

/-- C5: the duplicate count produced by the full-row grouping query equals the
number of distinct full rows occurring more than once, and it is `0` whenever
no two rows are fully identical. -/
theorem c5_duplicate_full_row_grouping (rows : List (List Cell)) :
    duplicateGroupCount rows =
      (rows.toFinset.filter (fun r => 1 < rows.count r)).card ∧
    (rows.Nodup → duplicateGroupCount rows = 0) := by
  constructor
  · rw [duplicateGroupCount,
      length_filter_eq_card_filter_toFinset rows.nodup_dedup, toFinset_dedup_eq]
    simp
  · intro hnd
    rw [duplicateGroupCount, List.length_eq_zero, List.filter_eq_nil_iff]
    intro r _
    have hle := count_le_one_of_nodup hnd r
    simp only [decide_eq_true_eq]
    omega

/-- C5 witness: two distinct rows give duplicate count `0`. -/
theorem c5_duplicate_witness :
    duplicateGroupCount [[some (Val.int 1)], [some (Val.int 2)]] = 0 :=
  (c5_duplicate_full_row_grouping [[some (Val.int 1)], [some (Val.int 2)]]).2 (by decide)

/-- C6: an empty table has completeness 100 and unique ratio 1; and on the
example table `(id INT, name TEXT)` with rows `(1,'a'), (2,NULL), (2,'a')`
the metrics are `null_count = 1`, `completeness = 83.33`,
`duplicate_count = 0`, `unique_ratio = 0.6667`. -/
theorem c6_quality_metrics_values :
    (∀ t : TableData, t.rows = [] → t.columns ≠ [] →
      ∃ m, metricsOfTable t = some m ∧ m.completeness = 100 ∧ m.uniqueness = 1) ∧
    metricsOfTable ⟨"t",
        [⟨"id", "INT", false, true⟩, ⟨"name", "TEXT", true, false⟩],
        [[some (Val.int 1), some (Val.text "a")],
         [some (Val.int 2), none],
         [some (Val.int 2), some (Val.text "a")]]⟩ =
      some ⟨8333/100, 1, 0, 6667/10000⟩ := by
  constructor
  · rintro ⟨nm, cols, rws⟩ hrows hcols
    simp only at hrows
    subst hrows
    cases cols with
    | nil => exact absurd rfl hcols
    | cons c cs =>
      have hm : metricsOfTable ⟨nm, c :: cs, []⟩ =
          some ⟨pyRound 100 2, 0, 0, pyRound 1 4⟩ := by
        simp [metricsOfTable, row_count, totalNullCount, colVals, countNulls,
          duplicateGroupCount, countDistinct, List.map_const']
      exact ⟨⟨pyRound 100 2, 0, 0, pyRound 1 4⟩, hm,
        pyRound_hundred_two, pyRound_one_four⟩
  · have hnull : totalNullCount ⟨"t",
        [⟨"id", "INT", false, true⟩, ⟨"name", "TEXT", true, false⟩],
        [[some (Val.int 1), some (Val.text "a")],
         [some (Val.int 2), none],
         [some (Val.int 2), some (Val.text "a")]]⟩ = 1 := rfl
    have hdup : duplicateGroupCount
        [[some (Val.int 1), some (Val.text "a")],
         [some (Val.int 2), none],
         [some (Val.int 2), some (Val.text "a")]] = 0 := rfl
    have hdist : countDistinct (colVals ⟨"t",
        [⟨"id", "INT", false, true⟩, ⟨"name", "TEXT", true, false⟩],
        [[some (Val.int 1), some (Val.text "a")],
         [some (Val.int 2), none],
         [some (Val.int 2), some (Val.text "a")]]⟩ 0) = 2 := rfl
    have hrc : row_count ⟨"t",
        [⟨"id", "INT", false, true⟩, ⟨"name", "TEXT", true, false⟩],
        [[some (Val.int 1), some (Val.text "a")],
         [some (Val.int 2), none],
         [some (Val.int 2), some (Val.text "a")]]⟩ = 3 := rfl
    simp only [metricsOfTable, hnull, hdup, hdist, hrc, List.length_cons,
      List.length_nil]
    norm_num [pyRound_completeness_example, pyRound_uniq_example]

/-- C6 witness: a concrete empty table. -/
theorem c6_quality_metrics_witness :
    ∃ m, metricsOfTable ⟨"e", [⟨"id", "INTEGER", false, true⟩], []⟩ = some m ∧
      m.completeness = 100 ∧ m.uniqueness = 1 :=
  c6_quality_metrics_values.1 ⟨"e", [⟨"id", "INTEGER", false, true⟩], []⟩ rfl (by simp)

/-- A parsed JSON value, as produced by `json.loads` (numbers are kept as
their source token: no embedded function inspects numeric values). -/
inductive PyJson where
  | null : PyJson
  | bool (b : Bool) : PyJson
  | num (raw : String) : PyJson
  | str (s : String) : PyJson
  | arr (elems : List PyJson) : PyJson
  | obj (fields : List (String × PyJson)) : PyJson

/-- JSON inter-token whitespace. -/
def skipWs (s : List Char) : List Char :=
  s.dropWhile (fun c => c == ' ' || c == '\t' || c == '\n' || c == '\r')

/-- Hex digit value, for `\u` escapes (code points 48-57 are the digits,
97-102 lowercase a-f, 65-70 uppercase A-F). -/
def hexVal (c : Char) : Option Nat :=
  let n := c.toNat
  if 48 ≤ n ∧ n ≤ 57 then some (n - 48)
  else if 97 ≤ n ∧ n ≤ 102 then some (n - 87)
  else if 65 ≤ n ∧ n ≤ 70 then some (n - 55)
  else none

/-- One-character JSON string escapes (backspace, form feed, newline,
carriage return and tab written by code point). -/
def escChar : Char → Option Char
  | '"' => some '"'
  | '\\' => some '\\'
  | '/' => some '/'
  | 'b' => some (Char.ofNat 8)
  | 'f' => some (Char.ofNat 12)
  | 'n' => some (Char.ofNat 10)
  | 'r' => some (Char.ofNat 13)
  | 't' => some (Char.ofNat 9)
  | _ => none

/-- Parse the remainder of a JSON string literal (the opening quote already
consumed), returning its characters and the input after the closing quote. -/
def parseStrChars : Nat → List Char → Option (List Char × List Char)
  | 0, _ => none
  | _ + 1, [] => none
  | f + 1, c :: rest =>
    if c == '"' then some ([], rest)
    else if c == '\\' then
      match rest with
      | [] => none
      | e :: rest2 =>
        if e == 'u' then
          match rest2 with
          | h1 :: h2 :: h3 :: h4 :: rest3 =>
            match hexVal h1, hexVal h2, hexVal h3, hexVal h4 with
            | some a, some b, some x, some d =>
              (parseStrChars f rest3).map
                (fun p => (Char.ofNat (((a * 16 + b) * 16 + x) * 16 + d) :: p.1, p.2))
            | _, _, _, _ => none
          | _ => none
        else
          match escChar e with
          | some ec => (parseStrChars f rest2).map (fun p => (ec :: p.1, p.2))
          | none => none
    else (parseStrChars f rest).map (fun p => (c :: p.1, p.2))

/-- One or more decimal digits. -/
def digits1 (s : List Char) : Option (List Char × List Char) :=
  let ds := s.takeWhile Char.isDigit
  if ds.isEmpty then none else some (ds, s.drop ds.length)

/-- JSON integer part: a single `0` or a nonempty digit run. -/
def parseIntPart : List Char → Option (List Char × List Char)
  | '0' :: rest => some (['0'], rest)
  | s => digits1 s

/-- Optional JSON fraction part. -/
def parseFrac : List Char → Option (List Char × List Char)
  | '.' :: r =>
    match digits1 r with
    | some p => some ('.' :: p.1, p.2)
    | none => none
  | s => some ([], s)

/-- Optional JSON exponent part. -/
def parseExp : List Char → Option (List Char × List Char)
  | [] => some ([], [])
  | c :: r =>
    if c == 'e' || c == 'E' then
      match r with
      | '+' :: rr =>
        match digits1 rr with
        | some p => some (c :: '+' :: p.1, p.2)
        | none => none
      | '-' :: rr =>
        match digits1 rr with
        | some p => some (c :: '-' :: p.1, p.2)
        | none => none
      | rr =>
        match digits1 rr with
        | some p => some (c :: p.1, p.2)
        | none => none
    else some ([], c :: r)

/-- A JSON number token starting at the given unsigned position. -/
def parseNumAfterSign (sign : List Char) (s : List Char) : Option (PyJson × List Char) :=
  match parseIntPart s with
  | none => none
  | some ip =>
    match parseFrac ip.2 with
    | none => none
    | some fp =>
      match parseExp fp.2 with
      | none => none
      | some ep => some (PyJson.num (String.mk (sign ++ ip.1 ++ fp.1 ++ ep.1)), ep.2)

/-- A JSON number token. -/
def parseNumberTok : List Char → Option (PyJson × List Char)
  | '-' :: s => parseNumAfterSign ['-'] s
  | s => parseNumAfterSign [] s

mutual

/-- A JSON value (leading whitespace allowed), fuel-bounded. -/
def parseValue : Nat → List Char → Option (PyJson × List Char)
  | 0, _ => none
  | f + 1, s0 =>
    match skipWs s0 with
    | [] => none
    | '"' :: rest => (parseStrChars f rest).map (fun p => (PyJson.str (String.mk p.1), p.2))
    | '\x7b' :: rest =>
      match skipWs rest with
      | '\x7d' :: r2 => some (PyJson.obj [], r2)
      | r1 => (parseMembers f r1).map (fun p => (PyJson.obj p.1, p.2))
    | '[' :: rest =>
      match skipWs rest with
      | ']' :: r2 => some (PyJson.arr [], r2)
      | r1 => (parseElems f r1).map (fun p => (PyJson.arr p.1, p.2))
    | 't' :: rest =>
      if startsWithL ['r', 'u', 'e'] rest then some (PyJson.bool true, rest.drop 3) else none
    | 'f' :: rest =>
      if startsWithL ['a', 'l', 's', 'e'] rest then some (PyJson.bool false, rest.drop 4) else none
    | 'n' :: rest =>
      if startsWithL ['u', 'l', 'l'] rest then some (PyJson.null, rest.drop 3) else none
    | s => parseNumberTok s

/-- A nonempty run of object members, consuming the closing brace. -/
def parseMembers : Nat → List Char → Option (List (String × PyJson) × List Char)
  | 0, _ => none
  | f + 1, s =>
    match s with
    | '"' :: rest =>
      match parseStrChars f rest with
      | none => none
      | some kp =>
        match skipWs kp.2 with
        | ':' :: r2 =>
          match parseValue f r2 with
          | none => none
          | some vp =>
            match skipWs vp.2 with
            | ',' :: r4 =>
              match parseMembers f (skipWs r4) with
              | none => none
              | some fsp => some ((String.mk kp.1, vp.1) :: fsp.1, fsp.2)
            | '\x7d' :: r4 => some ([(String.mk kp.1, vp.1)], r4)
            | _ => none
        | _ => none
    | _ => none

/-- A nonempty run of array elements, consuming the closing bracket. -/
def parseElems : Nat → List Char → Option (List PyJson × List Char)
  | 0, _ => none
  | f + 1, s =>
    match parseValue f s with
    | none => none
    | some vp =>
      match skipWs vp.2 with
      | ',' :: r2 =>
        match parseElems f r2 with
        | none => none
        | some vsp => some (vp.1 :: vsp.1, vsp.2)
      | ']' :: r2 => some ([vp.1], r2)
      | _ => none

end

/-- Model of Python `json.loads`: one value, then only trailing whitespace.
The fuel bound exceeds any possible recursion depth for the given input. -/
def json_loads (s : String) : Option PyJson :=
  match parseValue (2 * s.data.length + 8) s.data with
  | some p => if (skipWs p.2).isEmpty then some p.1 else none
  | none => none

/-- The body scan of the non-greedy object regex used by `generate_sql`
(pattern `\x7b[^\x7b\x7d]*\x7d` on braces): characters up to a closing brace,
failing on an opening brace or the end of input. -/
def scanFlatBody : List Char → Option (List Char)
  | [] => none
  | '\x7d' :: _ => some []
  | '\x7b' :: _ => none
  | c :: rest => (scanFlatBody rest).map (c :: ·)

/-- Leftmost match of the `generate_sql` JSON regex: an opening brace, a run
of non-brace characters, and a closing brace. -/
def findBraceFlat : List Char → Option (List Char)
  | [] => none
  | '\x7b' :: rest =>
    match scanFlatBody rest with
    | some body => some ('\x7b' :: (body ++ ['\x7d']))
    | none => findBraceFlat rest
  | _ :: rest => findBraceFlat rest

/-- Leftmost match of the greedy object regex used by `summarize_data` (an
opening brace, then greedily everything up to the last closing brace of the
whole input). -/
def findBraceGreedy : List Char → Option (List Char)
  | [] => none
  | '\x7b' :: rest =>
    match (rest.reverse.dropWhile (fun c => !(c == '\x7d'))) with
    | [] => none
    | keptRev => some ('\x7b' :: keptRev.reverse)
  | _ :: rest => findBraceGreedy rest

/-- Leftmost match of the `generate_sql` fallback regex `SELECT[^;]+;?`
(case-insensitive): a literal `SELECT`, at least one non-semicolon character,
and an optional semicolon; the matched text keeps the original casing. -/
def findSelect : List Char → Option (List Char)
  | [] => none
  | c :: rest =>
    if startsWithL ['S', 'E', 'L', 'E', 'C', 'T'] ((c :: rest).map Char.toUpper) then
      let after := (c :: rest).drop 6
      let body := after.takeWhile (fun x => !(x == ';'))
      if body.isEmpty then findSelect rest
      else
        match after.drop body.length with
        | ';' :: _ => some ((c :: rest).take 6 ++ body ++ [';'])
        | _ => some ((c :: rest).take 6 ++ body)
    else findSelect rest

/-- Python `dict.get` over the parsed member list (later duplicate keys
override earlier ones, as in `json.loads`). -/
def pyDictGet (fields : List (String × PyJson)) (k : String) : Option PyJson :=
  fields.foldl (fun acc kv => if kv.1 == k then some kv.2 else acc) none

/-- The result of the `generate_sql` response decoder.  Fields hold the raw
JSON values the Python dict would hold (the source does not coerce them). -/
structure GenSqlResult where
  sql : PyJson
  explanation : PyJson

/-- The JSON tier of `generate_sql`: the first flat brace group, parsed. -/
def jsonTierSql (response : String) : Option PyJson :=
  (findBraceFlat response.data).bind (fun m => json_loads (String.mk m))

/-- The response decoder of `LLMService.generate_sql`
(`app/services/llm.py`, lines 134-158).  A successful `json.loads` on a
brace-delimited match is always a dict, so the non-object arm of the first
match is unreachable; it falls through to the regex tier like a parse
failure. -/
def decode_generate_sql (response : String) : GenSqlResult :=
  match jsonTierSql response with
  | some (PyJson.obj fields) =>
    ⟨(pyDictGet fields "sql").getD (PyJson.str ""),
     (pyDictGet fields "explanation").getD (PyJson.str "Query generated from natural language")⟩
  | _ =>
    match findSelect response.data with
    | some m =>
      ⟨PyJson.str (pyStrip (String.mk m)),
       PyJson.str "Query generated from natural language"⟩
    | none =>
      ⟨PyJson.str "", PyJson.str "Could not generate a valid SQL query"⟩

/-- The result of the `summarize_data` response decoder. -/
structure SummarizeResult where
  summary : PyJson
  insights : PyJson

/-- The JSON tier of `summarize_data`: the greedy brace group, parsed. -/
def jsonTierGreedy (response : String) : Option PyJson :=
  (findBraceGreedy response.data).bind (fun m => json_loads (String.mk m))

/-- The response decoder of `LLMService.summarize_data`
(`app/services/llm.py`, lines 301-318); on total failure the whole raw
response becomes the summary. -/
def decode_summarize (response : String) : SummarizeResult :=
  match jsonTierGreedy response with
  | some (PyJson.obj fields) =>
    ⟨(pyDictGet fields "summary").getD (PyJson.str ""),
     (pyDictGet fields "insights").getD (PyJson.arr [])⟩
  | _ => ⟨PyJson.str response, PyJson.arr []⟩

/-- C2: the SQL response decoder is total by construction and strictly
tiered: the JSON literal yields its `sql` and `explanation` fields via the
JSON tier; the non-JSON text yields its `SELECT ... ;` span via the regex
tier; and whenever neither a brace-delimited JSON object parses nor a
`SELECT` span is found, the decoded SQL is the empty string. -/
theorem c2_decoder_tiers :
    decode_generate_sql "\x7b\"sql\": \"SELECT 1\", \"explanation\": \"test\"\x7d" =
      ⟨PyJson.str "SELECT 1", PyJson.str "test"⟩ ∧
    decode_generate_sql "Sure! SELECT * FROM customers;" =
      ⟨PyJson.str "SELECT * FROM customers;",
       PyJson.str "Query generated from natural language"⟩ ∧
    (∀ response : String,
      jsonTierSql response = none →
      findSelect response.data = none →
      decode_generate_sql response =
        ⟨PyJson.str "", PyJson.str "Could not generate a valid SQL query"⟩) := by
  refine ⟨by rfl, by rfl, ?_⟩
  intro r h1 h2
  rw [decode_generate_sql, h1, h2]

/-- C2 witness: a garbage response decodes to the empty SQL result. -/
theorem c2_decoder_witness :
    decode_generate_sql "no query here" =
      ⟨PyJson.str "", PyJson.str "Could not generate a valid SQL query"⟩ :=
  c2_decoder_tiers.2.2 "no query here" (by rfl) (by rfl)

/-- C7 counterexample: on a response whose JSON tier parses to an object
lacking `"explanation"`, the SQL decoder substitutes the fixed message
`"Query generated from natural language"`, not the empty string the claim
requires. -/
theorem c7_counterexample_explanation_default :
    jsonTierSql "\x7b\"sql\": \"SELECT 1\"\x7d" =
      some (PyJson.obj [("sql", PyJson.str "SELECT 1")]) ∧
    pyDictGet [("sql", PyJson.str "SELECT 1")] "explanation" = none ∧
    (decode_generate_sql "\x7b\"sql\": \"SELECT 1\"\x7d").explanation =
      PyJson.str "Query generated from natural language" ∧
    (decode_generate_sql "\x7b\"sql\": \"SELECT 1\"\x7d").explanation ≠
      PyJson.str "" := by
  refine ⟨by rfl, by rfl, by rfl, ?_⟩
  intro h
  rw [show (decode_generate_sql "\x7b\"sql\": \"SELECT 1\"\x7d").explanation =
      PyJson.str "Query generated from natural language" from rfl] at h
  simp at h

/-- C7 as amended: whenever the JSON tier parses an object missing a named
field, the decoder substitutes that field's own documented fallback — in the
SQL decoder the empty string for `"sql"` and the fixed message
`"Query generated from natural language"` for `"explanation"`; in the
summarizer decoder the empty string for `"summary"` and the empty list for
`"insights"`. -/
theorem c7_field_fallbacks :
    (∀ (response : String) (fields : List (String × PyJson)),
      jsonTierSql response = some (PyJson.obj fields) →
      pyDictGet fields "sql" = none →
      (decode_generate_sql response).sql = PyJson.str "") ∧
    (∀ (response : String) (fields : List (String × PyJson)),
      jsonTierSql response = some (PyJson.obj fields) →
      pyDictGet fields "explanation" = none →
      (decode_generate_sql response).explanation =
        PyJson.str "Query generated from natural language") ∧
    (∀ (response : String) (fields : List (String × PyJson)),
      jsonTierGreedy response = some (PyJson.obj fields) →
      pyDictGet fields "summary" = none →
      (decode_summarize response).summary = PyJson.str "") ∧
    (∀ (response : String) (fields : List (String × PyJson)),
      jsonTierGreedy response = some (PyJson.obj fields) →
      pyDictGet fields "insights" = none →
      (decode_summarize response).insights = PyJson.arr []) := by
  refine ⟨?_, ?_, ?_, ?_⟩ <;>
    (intro r fs h1 h2
     first
     | rw [decode_generate_sql, h1]; simp [h2]
     | rw [decode_summarize, h1]; simp [h2])

/-- C7 witness: concrete objects missing each field get the fallbacks. -/
theorem c7_field_fallbacks_witness :
    (decode_generate_sql "\x7b\x7d").sql = PyJson.str "" ∧
    (decode_generate_sql "\x7b\x7d").explanation =
      PyJson.str "Query generated from natural language" ∧
    (decode_summarize "\x7b\"x\": 1\x7d").summary = PyJson.str "" ∧
    (decode_summarize "\x7b\"x\": 1\x7d").insights = PyJson.arr [] :=
  ⟨c7_field_fallbacks.1 "\x7b\x7d" [] (by rfl) (by rfl),
   c7_field_fallbacks.2.1 "\x7b\x7d" [] (by rfl) (by rfl),
   c7_field_fallbacks.2.2.1 "\x7b\"x\": 1\x7d" [("x", PyJson.num "1")] (by rfl) (by rfl),
   c7_field_fallbacks.2.2.2 "\x7b\"x\": 1\x7d" [("x", PyJson.num "1")] (by rfl) (by rfl)⟩

/-- Python regex word character (ASCII fragment of `\w`). -/
def isWordChar (c : Char) : Bool := c.isAlphanum || c == '_'

/-- Try pattern `KW\s+(\w+)` at the head of `s`; on success return the
whitespace-run length and the captured group.  `\s` and `\w` are disjoint, so
the greedy runs need no backtracking. -/
def tryKwMatch (kw : List Char) (s : List Char) : Option (Nat × List Char) :=
  if startsWithL kw s then
    let after := s.drop kw.length
    let ws := after.takeWhile isSpaceChar
    if ws.isEmpty then none
    else
      let grp := (after.drop ws.length).takeWhile isWordChar
      if grp.isEmpty then none else some (ws.length, grp)
  else none

/-- `re.findall` for one `KW\s+(\w+)` pattern: scan left to right,
non-overlapping, recording the group's start index and text. -/
def findallKwAux (kw : List Char) : Nat → List Char → Nat → List (Nat × List Char)
  | 0, _, _ => []
  | _ + 1, [], _ => []
  | f + 1, c :: rest, i =>
    match tryKwMatch kw (c :: rest) with
    | some p =>
      (i + kw.length + p.1, p.2) ::
        findallKwAux kw f ((c :: rest).drop (kw.length + p.1 + p.2.length))
          (i + kw.length + p.1 + p.2.length)
    | none => findallKwAux kw f rest (i + 1)

/-- All matches of one keyword pattern over the input. -/
def findallKw (kw : List Char) (s : List Char) : List (Nat × List Char) :=
  findallKwAux kw (s.length + 1) s 0

/-- The four keyword patterns of `extract_tables_from_sql`. -/
def tableKeywords : List (List Char) :=
  [['F', 'R', 'O', 'M'], ['J', 'O', 'I', 'N'],
   ['I', 'N', 'T', 'O'], ['U', 'P', 'D', 'A', 'T', 'E']]

/-- All captured groups over all four patterns, run against the uppercased
SQL, in pattern order. -/
def allKwMatches (su : List Char) : List (List Char) :=
  tableKeywords.flatMap (fun kw => (findallKw kw su).map Prod.snd)

/-- Model of Python `s.find(sub)`: index of the first occurrence. -/
def pyFindSub (p : List Char) : List Char → Option Nat
  | [] => if startsWithL p [] then some 0 else none
  | c :: rest =>
    if startsWithL p (c :: rest) then some 0
    else (pyFindSub p rest).map (· + 1)

/-- The slice `s[i : i+len]`. -/
def sublistAt (s : List Char) (i len : Nat) : List Char := (s.drop i).take len

/-- The loop body of `extract_tables_from_sql`: look the matched (uppercase)
name up with `find` in the uppercased SQL and add the original-text slice at
that index to the accumulated set. -/
def insertFound (su orig : List Char) (acc : List String) (m : List Char) : List String :=
  match pyFindSub m su with
  | some i =>
    if String.mk (sublistAt orig i m.length) ∈ acc then acc
    else acc ++ [String.mk (sublistAt orig i m.length)]
  | none => acc

/-- `extract_tables_from_sql` of `app/routers/explain.py`, lines 30-52.  The
source accumulates into a Python `set` and returns `list(tables)`; the set is
modelled as an insertion-ordered duplicate-free list, so only membership (not
order) is claimed of the result. -/
def extract_tables_from_sql (sql : String) : List String :=
  (allKwMatches (pyUpper sql).data).foldl (insertFound (pyUpper sql).data sql.data) []

theorem startsWithL_take {p : List Char} : ∀ {s : List Char},
    startsWithL p s = true → s.take p.length = p := by
  induction p with
  | nil => intro s _; simp
  | cons a as ih =>
    intro s h
    cases s with
    | nil => simp [startsWithL] at h
    | cons b bs =>
      simp only [startsWithL, Bool.and_eq_true, beq_iff_eq] at h
      obtain ⟨rfl, h2⟩ := h
      simp [List.take_succ_cons, ih h2]

theorem pyFindSub_startsWith {p : List Char} : ∀ {s : List Char} {i : Nat},
    pyFindSub p s = some i → startsWithL p (s.drop i) = true := by
  intro s
  induction s with
  | nil =>
    intro i h
    rw [pyFindSub] at h
    split at h
    · cases h; simpa using ‹startsWithL p [] = true›
    · cases h
  | cons c rest ih =>
    intro i h
    rw [pyFindSub] at h
    split at h
    · cases h
      simpa using ‹startsWithL p (c :: rest) = true›
    · cases hmap : pyFindSub p rest with
      | none => rw [hmap] at h; cases h
      | some j =>
        rw [hmap] at h
        simp only [Option.map_some'] at h
        cases h
        simpa using ih hmap

theorem mem_foldl_insertFound (su orig : List Char) :
    ∀ (ms : List (List Char)) (acc : List String) (t : String),
      t ∈ ms.foldl (insertFound su orig) acc →
      t ∈ acc ∨ ∃ m i, m ∈ ms ∧ pyFindSub m su = some i ∧
        t = String.mk (sublistAt orig i m.length) := by
  intro ms
  induction ms with
  | nil => intro acc t h; exact Or.inl h
  | cons m ms ih =>
    intro acc t h
    rw [List.foldl_cons] at h
    rcases ih (insertFound su orig acc m) t h with hacc | ⟨m', i, hm', hf, ht⟩
    · rw [insertFound] at hacc
      rcases hfind : pyFindSub m su with _ | i
      · simp only [hfind] at hacc
        exact Or.inl hacc
      · simp only [hfind] at hacc
        by_cases hmem : String.mk (sublistAt orig i m.length) ∈ acc
        · rw [if_pos hmem] at hacc
          exact Or.inl hacc
        · rw [if_neg hmem] at hacc
          rcases List.mem_append.mp hacc with h1 | h2
          · exact Or.inl h1
          · exact Or.inr ⟨m, i, List.mem_cons_self m ms, hfind, by simpa using h2⟩
    · exact Or.inr ⟨m', i, List.mem_cons_of_mem m hm', hf, ht⟩

/-- C8 counterexample: on `"SELECT ABC FROM abc"` the single `FROM` match
captures the group at index 16, where the original text reads `"abc"`; yet
the extractor returns `"ABC"` (the casing of the first occurrence of the
uppercased name, at index 7) and not `"abc"`. -/
theorem c8_counterexample_casing :
    extract_tables_from_sql "SELECT ABC FROM abc" = ["ABC"] ∧
    findallKw ['F', 'R', 'O', 'M'] (pyUpper "SELECT ABC FROM abc").data =
      [(16, ['A', 'B', 'C'])] ∧
    String.mk (sublistAt "SELECT ABC FROM abc".data 16 3) = "abc" ∧
    "abc" ∉ extract_tables_from_sql "SELECT ABC FROM abc" :=
  ⟨by rfl, by rfl, by rfl, by decide⟩

/-- C8 as amended: every returned table name is the slice of the original
text at the first index at which the uppercased match occurs in the
uppercased text (Python `str.find`), so its casing is that of the first
occurrence — which need not be the match position. -/
theorem c8_extractor_first_occurrence (sql : String) (t : String)
    (ht : t ∈ extract_tables_from_sql sql) :
    ∃ m i, m ∈ allKwMatches (pyUpper sql).data ∧
      pyFindSub m (pyUpper sql).data = some i ∧
      t = String.mk (sublistAt sql.data i m.length) ∧
      pyUpper t = String.mk m := by
  rcases mem_foldl_insertFound (pyUpper sql).data sql.data
      (allKwMatches (pyUpper sql).data) [] t ht with habs | ⟨m, i, hm, hf, hteq⟩
  · exact absurd habs (List.not_mem_nil t)
  · refine ⟨m, i, hm, hf, hteq, ?_⟩
    have htake : ((pyUpper sql).data.drop i).take m.length = m :=
      startsWithL_take (pyFindSub_startsWith hf)
    have hmap : (sublistAt sql.data i m.length).map Char.toUpper = m := by
      have hstep : (sublistAt sql.data i m.length).map Char.toUpper =
          ((pyUpper sql).data.drop i).take m.length := by
        rw [sublistAt, List.map_take, List.map_drop]
        rfl
      exact hstep.trans htake
    rw [hteq]
    show String.mk ((sublistAt sql.data i m.length).map Char.toUpper) = String.mk m
    rw [hmap]

/-- C8 witness: a concrete extraction where the first occurrence is the match
itself. -/
theorem c8_extractor_witness :
    ∃ m i, m ∈ allKwMatches (pyUpper "SELECT x FROM users").data ∧
      pyFindSub m (pyUpper "SELECT x FROM users").data = some i ∧
      "users" = String.mk (sublistAt "SELECT x FROM users".data i m.length) ∧
      pyUpper "users" = String.mk m :=
  c8_extractor_first_occurrence "SELECT x FROM users" "users" (by decide)
